/-
  Verification of the Smart Building Energy Monitor System (src/app.py)
  against its natural-language specification.

  The Python source is shallowly embedded: pure functions become Lean
  functions over ℚ (the decimal arithmetic of the tariff function is
  exact at every value the claims mention, so ℚ is a faithful model),
  the SQLite tables become lists of rows, the in-memory schedule
  execution tracker becomes an association list, and the cloud API is
  modelled by an explicit environment describing the outcome of each
  outbound request.
-/
import Mathlib

/-! ## Billing tariff (`calc_bill_bd`, src/app.py lines 371-383) -/

/-- Branch 1 of `calc_bill_bd` (`kwh <= 50`): `kwh * 3.75`. -/
def tier1 (kwh : ℚ) : ℚ := kwh * 3.75

/-- Branch 2 of `calc_bill_bd` (`kwh <= 75`):
`(50 * 3.75) + (kwh - 50) * 4.19`. -/
def tier2 (kwh : ℚ) : ℚ := (50 * 3.75) + (kwh - 50) * 4.19

/-- Branch 3 of `calc_bill_bd` (`kwh <= 200`):
`(50 * 3.75) + (25 * 4.19) + (kwh - 75) * 5.72`. -/
def tier3 (kwh : ℚ) : ℚ := (50 * 3.75) + (25 * 4.19) + (kwh - 75) * 5.72

/-- Branch 4 of `calc_bill_bd` (`kwh <= 300`):
`(50 * 3.75) + (25 * 4.19) + (125 * 5.72) + (kwh - 200) * 6.00`. -/
def tier4 (kwh : ℚ) : ℚ :=
  (50 * 3.75) + (25 * 4.19) + (125 * 5.72) + (kwh - 200) * 6.00

/-- Branch 5 of `calc_bill_bd` (`kwh <= 400`):
`(50 * 3.75) + (25 * 4.19) + (125 * 5.72) + (100 * 6.00) + (kwh - 300) * 6.34`. -/
def tier5 (kwh : ℚ) : ℚ :=
  (50 * 3.75) + (25 * 4.19) + (125 * 5.72) + (100 * 6.00) + (kwh - 300) * 6.34

/-- Branch 6 of `calc_bill_bd` (else):
`(50 * 3.75) + (25 * 4.19) + (125 * 5.72) + (100 * 6.00) + (100 * 6.34) + (kwh - 400) * 9.94`. -/
def tier6 (kwh : ℚ) : ℚ :=
  (50 * 3.75) + (25 * 4.19) + (125 * 5.72) + (100 * 6.00) + (100 * 6.34)
    + (kwh - 400) * 9.94

/-- The Bangladesh billing tariff of src/app.py lines 371-383: a
six-branch `if/elif` chain on the cumulative kWh, each branch being the
corresponding `tier` expression above. -/
def calc_bill_bd (kwh : ℚ) : ℚ :=
  if kwh ≤ 50 then tier1 kwh
  else if kwh ≤ 75 then tier2 kwh
  else if kwh ≤ 200 then tier3 kwh
  else if kwh ≤ 300 then tier4 kwh
  else if kwh ≤ 400 then tier5 kwh
  else tier6 kwh

/-! ## Cloud client (`get_device_data`, src/app.py lines 117-168)

The cloud API is modelled by a `CloudEnv` describing the outcome of the
three outbound interactions `get_device_data` performs: the
`get_device_info` call (which itself wraps a token request and a
metadata request and returns `None` on any failure or missing `result`
field), the second `get_token` call, and the status request.  A `none`
outcome stands for a failed request, a raised exception, or a malformed
response (missing `result`), exactly the cases the source collapses. -/

/-- A JSON value occurring in a status data point.  Python booleans are
integers, so `True / 10` evaluates to `0.1`; `JVal.toRat` mirrors that. -/
inductive JVal where
  | num (q : ℚ)
  | bool (b : Bool)
deriving DecidableEq, Repr

/-- Numeric reading of a JSON value, following Python arithmetic on
`bool` (a subtype of `int`). -/
def JVal.toRat : JVal → ℚ
  | .num q => q
  | .bool b => if b then 1 else 0

/-- One element of the `result` array of the status response:
`{'code': ..., 'value': ...}`. -/
structure DataPoint where
  code : String
  value : JVal
deriving DecidableEq, Repr

/-- The device-metadata dictionary returned by `get_device_info`; the
source reads it only through `device_info.get('online', False)`, so a
possibly-absent `online` field is all that is modelled. -/
structure DeviceInfo where
  onlineField : Option Bool
deriving DecidableEq, Repr

/-- Outcomes of the outbound requests made during one `get_device_data`
call. -/
structure CloudEnv where
  infoResult : Option DeviceInfo
  tokenResult : Option String
  statusResult : Option (List DataPoint)
deriving DecidableEq, Repr

/-- `get_device_data` (src/app.py lines 117-168) as a function of the
request outcomes.  Returns `(voltage, current, power, switch, is_online)`;
the `switch` slot carries the raw JSON value, as in the Python tuple.
Every failure path of the source returns the zeroed tuple. -/
def get_device_data (env : CloudEnv) : ℚ × ℚ × ℚ × JVal × Bool :=
  match env.infoResult with
  | none => (0, 0, 0, .bool false, false)
  | some device_info =>
    let is_online := device_info.onlineField.getD false
    if !is_online then (0, 0, 0, .bool false, false)
    else
      match env.tokenResult with
      | none => (0, 0, 0, .bool false, false)
      | some _ =>
        match env.statusResult with
        | none => (0, 0, 0, .bool false, false)
        | some data =>
          let switch := ((data.find? (fun d => d.code = "switch_1")).map
            (fun d => d.value)).getD (.bool false)
          let voltage := ((data.find? (fun d => d.code = "cur_voltage")).map
            (fun d => d.value.toRat / 10)).getD 0
          let current := ((data.find? (fun d => d.code = "cur_current")).map
            (fun d => d.value.toRat / 1000)).getD 0
          let power := ((data.find? (fun d => d.code = "cur_power")).map
            (fun d => d.value.toRat / 10)).getD 0
          (voltage, current, power, switch, is_online)

/-! ## Readings store (src/app.py lines 27-35 and 341-345)

The `readings` table is modelled as a list of rows; the
`UNIQUE(device_id, ts)` constraint together with `INSERT OR IGNORE`
makes an insert a no-op whenever a row with the same `(device_id, ts)`
key is already present, and an append otherwise. -/

/-- A row of the `readings` table. -/
structure Reading where
  device_id : String
  ts : Int
  voltage : ℚ
  current : ℚ
  power : ℚ
deriving DecidableEq, Repr

/-- Whether the table already holds a row with key `(d, t)` — the
conflict test of the `UNIQUE(device_id, ts)` constraint. -/
def hasKey (tbl : List Reading) (d : String) (t : Int) : Bool :=
  tbl.any (fun q => q.device_id = d ∧ q.ts = t)

/-- `INSERT OR IGNORE INTO readings ...` (src/app.py lines 341-344): a
silent no-op on a `(device_id, ts)` conflict, an append otherwise. -/
def insertOrIgnore (tbl : List Reading) (r : Reading) : List Reading :=
  if hasKey tbl r.device_id r.ts then tbl else tbl ++ [r]

/-- The store invariant: at most one row per `(device_id, ts)` key. -/
def noDupKey (tbl : List Reading) : Prop :=
  tbl.Pairwise (fun a b => ¬(a.device_id = b.device_id ∧ a.ts = b.ts))

/-! ## Device registry, device deletion, and the poll loop
(src/app.py lines 18-24, 321-352, 475-501)

The three tables form a `DB` record.  One pass of the device loop inside
`collect_data_periodically` (lines 321-352) is `pollCycle`: for each
device of the cycle's device list it re-checks existence, fetches
telemetry through `get_device_data`, and — only when the device is
online — double-checks existence and performs the `INSERT OR IGNORE`.
The cloud transport during the cycle is a map from device id to
`CloudEnv`. -/

/-- A row of the `devices` table. -/
structure Device where
  device_id : String
  device_name : String
  access_id : String
  access_secret : String
deriving DecidableEq, Repr

/-- A row of the `schedules` table (src/app.py lines 38-47); `days` is
the comma-separated weekday list, `enabled` the `enabled = 1` flag. -/
structure ScheduleRow where
  id : Nat
  device_id : String
  schedule_name : String
  start_time : String
  end_time : String
  days : String
  enabled : Bool
deriving DecidableEq, Repr

/-- The persistent store: the three SQLite tables. -/
structure DB where
  devices : List Device
  readings : List Reading
  schedules : List ScheduleRow
deriving DecidableEq, Repr

/-- Whether a device row with the given id exists
(`SELECT 1 FROM devices WHERE device_id = ?`). -/
def deviceExists (devices : List Device) (did : String) : Bool :=
  devices.any (fun d => d.device_id = did)

/-- `delete_device` (src/app.py lines 475-501): 404 (`false`) when the
device is absent; otherwise delete the device's readings, then the
device row.  The `schedules` table is not touched. -/
def delete_device (db : DB) (did : String) : DB × Bool :=
  if deviceExists db.devices did then
    ({ devices := db.devices.filter (fun d => ¬ d.device_id = did),
       readings := db.readings.filter (fun r => ¬ r.device_id = did),
       schedules := db.schedules }, true)
  else (db, false)

/-- The body of the per-device loop of `collect_data_periodically`
(src/app.py lines 321-352): existence re-check, telemetry fetch, and —
only if `is_online` — a second existence check and the
`INSERT OR IGNORE` of the reading. -/
def pollStep (devices : List Device) (env : String → CloudEnv) (ts : Int)
    (readings : List Reading) (dev : Device) : List Reading :=
  if deviceExists devices dev.device_id then
    let t := get_device_data (env dev.device_id)
    if t.2.2.2.2 then
      if deviceExists devices dev.device_id then
        insertOrIgnore readings ⟨dev.device_id, ts, t.1, t.2.1, t.2.2.1⟩
      else readings
    else readings
  else readings

/-- One pass of the device loop of `collect_data_periodically`: the
device list is read at the start of the pass and each device is
processed by `pollStep`. -/
def pollCycle (db : DB) (env : String → CloudEnv) (ts : Int) : DB :=
  { db with readings := db.devices.foldl (pollStep db.devices env ts) db.readings }

/-- The rows of the readings table belonging to one device. -/
def readingsFor (tbl : List Reading) (did : String) : List Reading :=
  tbl.filter (fun r => r.device_id = did)

/-- A one-device store used to instantiate the poll-loop theorems. -/
def dbW : DB :=
  { devices := [⟨"d1", "Lamp", "aid", "asecret"⟩],
    readings := [⟨"d1", 5, 230, 1, 60⟩],
    schedules := [⟨1, "d1", "night", "08:00", "18:00", "monday", true⟩] }

/-- A cloud environment in which every request fails. -/
def envW : String → CloudEnv := fun _ => ⟨none, none, none⟩

/-! ## Schedule evaluator (`check_and_execute_schedules`,
src/app.py lines 174-290)

`schedule_execution_tracker` is a process-global Python dict from
tracker-key strings (`f"{schedule_id}_ON_{current_day}"`) to the
minute-string at which that transition last fired; it is modelled as an
association list.  The command transport (token request plus `POST
/commands`) is modelled by a per-(schedule, transition) outcome: whether
the token was obtained, and the HTTP status of the POST (`none` = the
request raised).  A command counts as issued when the POST is attempted,
i.e. exactly when the token was obtained; the tracker is marked only on
a 200 response, as in the source. -/

/-- Python `str.split(',')` on the character list. -/
def splitCommaAux : List Char → List Char → List (List Char)
  | [], acc => [acc.reverse]
  | c :: rest, acc =>
    if c = ',' then acc.reverse :: splitCommaAux rest []
    else splitCommaAux rest (c :: acc)

/-- Python `str.split(',')`: `"a,b".split(',') == ['a', 'b']`,
`"monday".split(',') == ['monday']`. -/
def pySplitComma (s : String) : List String :=
  (splitCommaAux s.data []).map String.mk

/-- Python `str.strip()`: drop leading and trailing whitespace. -/
def pyStrip (s : String) : String :=
  String.mk (((s.data.dropWhile Char.isWhitespace).reverse.dropWhile
    Char.isWhitespace).reverse)

/-- Python `str.lower()` on ASCII day names. -/
def pyLower (s : String) : String := String.mk (s.data.map Char.toLower)

/-- `[day.strip().lower() for day in days.split(',')]`
(src/app.py line 205). -/
def parseDays (days : String) : List String :=
  (pySplitComma days).map (fun day => pyLower (pyStrip day))

/-- The in-memory `schedule_execution_tracker` dict: tracker key →
minute-string of the last successful execution. -/
abbrev Tracker := List (String × String)

/-- Python dict lookup `tracker[key]` guarded by `key in tracker`. -/
def lookupTracker (tr : Tracker) (k : String) : Option String :=
  (tr.find? (fun e => e.1 = k)).map (fun e => e.2)

/-- Python dict assignment `tracker[key] = v`. -/
def markTracker (tr : Tracker) (k v : String) : Tracker :=
  (k, v) :: tr.filter (fun e => ¬ e.1 = k)

/-- Outcome of one command attempt: was a bearer token obtained, and —
if so — the HTTP status of the `POST /commands` (`none` = the request
raised an exception). -/
structure CmdOutcome where
  token_ok : Bool
  status : Option Nat
deriving DecidableEq, Repr

/-- The transport environment for one evaluator invocation: outcome per
(schedule id, transition kind), `true` = the ON transition. -/
abbrev CmdEnv := Nat → Bool → CmdOutcome

/-- A switch command sent to the cloud:
`{"commands": [{"code": "switch_1", "value": turn_on}]}` for the device
of schedule `schedule_id`. -/
structure Cmd where
  schedule_id : Nat
  turn_on : Bool
deriving DecidableEq, Repr

/-- The per-schedule body of the loop in `check_and_execute_schedules`
(src/app.py lines 203-285): skip if today is not a scheduled day;
at `start_time` fire ON unless the tracker shows ON already fired at
this minute for this schedule and weekday; `elif` at `end_time`, the
symmetric OFF branch.  On a 200 response the tracker is marked with the
current minute; on any transport failure it is left untouched. -/
def evalSchedule (env : CmdEnv) (current_time current_day : String)
    (st : List Cmd × Tracker) (s : ScheduleRow) : List Cmd × Tracker :=
  let cmds := st.1
  let tracker := st.2
  let schedule_days := parseDays s.days
  if schedule_days.contains current_day then
    let tracker_key_on := s!"{s.id}_ON_{current_day}"
    let tracker_key_off := s!"{s.id}_OFF_{current_day}"
    if current_time = s.start_time then
      if lookupTracker tracker tracker_key_on = some current_time then
        (cmds, tracker)
      else
        let o := env s.id true
        if o.token_ok then
          if o.status = some 200 then
            (cmds ++ [⟨s.id, true⟩], markTracker tracker tracker_key_on current_time)
          else (cmds ++ [⟨s.id, true⟩], tracker)
        else (cmds, tracker)
    else if current_time = s.end_time then
      if lookupTracker tracker tracker_key_off = some current_time then
        (cmds, tracker)
      else
        let o := env s.id false
        if o.token_ok then
          if o.status = some 200 then
            (cmds ++ [⟨s.id, false⟩], markTracker tracker tracker_key_off current_time)
          else (cmds ++ [⟨s.id, false⟩], tracker)
        else (cmds, tracker)
    else (cmds, tracker)
  else (cmds, tracker)

/-- `check_and_execute_schedules` (src/app.py lines 174-290) at one
wall-clock minute: the enabled schedules (`WHERE s.enabled = 1`) are
processed in order against the shared tracker.  Returns the list of
issued commands and the updated tracker. -/
def check_and_execute_schedules (schedules : List ScheduleRow)
    (env : CmdEnv) (current_time current_day : String) (tracker : Tracker) :
    List Cmd × Tracker :=
  (schedules.filter (fun s => s.enabled)).foldl
    (evalSchedule env current_time current_day) ([], tracker)

/-- Two-digit zero-padded rendering, as in `strftime('%H:%M')`. -/
def pad2 (n : Nat) : String := if n < 10 then "0" ++ toString n else toString n

/-- The `'%H:%M'` string of minute `m` of the day. -/
def minuteToHHMM (m : Nat) : String := pad2 (m / 60) ++ ":" ++ pad2 (m % 60)

/-- One simulated minute: run the evaluator at minute `m` of the day on
the threaded state, recording issued commands with their minute. -/
def simStep (schedules : List ScheduleRow) (env : CmdEnv) (day : String)
    (acc : List (String × Cmd) × Tracker) (m : Nat) :
    List (String × Cmd) × Tracker :=
  let t := minuteToHHMM m
  let r := check_and_execute_schedules schedules env t day acc.2
  (acc.1 ++ r.1.map (fun c => (t, c)), r.2)

/-- A simulated day: the evaluator runs once per minute from `00:00` to
`23:59` on a fixed weekday, threading the tracker; issued commands are
recorded with the minute at which they were issued. -/
def simulateDay (schedules : List ScheduleRow) (env : CmdEnv)
    (day : String) (tracker : Tracker) :
    List (String × Cmd) × Tracker :=
  (List.range 1440).foldl (simStep schedules env day) ([], tracker)

/-- The transport environment in which every command succeeds. -/
def envOK : CmdEnv := fun _ _ => ⟨true, some 200⟩

/-- The single schedule of C1: start `08:00`, end `18:00`, Mondays only,
enabled. -/
def s1 : ScheduleRow := ⟨1, "plug1", "daytime", "08:00", "18:00", "monday", true⟩

/-- The tracker as it stands after the simulated Monday of C1. -/
def trMon : Tracker := [("1_OFF_monday", "18:00"), ("1_ON_monday", "08:00")]

/-- A schedule whose start and end times coincide. -/
def s7 : ScheduleRow := ⟨7, "plug7", "pulse", "08:00", "08:00", "monday", true⟩

/-- The transport environment in which the POST always returns 500. -/
def envFail : CmdEnv := fun _ _ => ⟨true, some 500⟩

/-- C3: the tariff function satisfies the spot values
`calc_bill_bd 0 = 0`, `calc_bill_bd 50 = 187.5`, `calc_bill_bd 75 = 292.25`
(the Python float computation is exact at these three inputs, so the
rational model agrees with the source bit-for-bit there). -/
theorem calc_bill_bd_spot_values :
    calc_bill_bd 0 = 0 ∧ calc_bill_bd 50 = 187.5 ∧ calc_bill_bd 75 = 292.25 := by
  refine ⟨?_, ?_, ?_⟩ <;> norm_num [calc_bill_bd, tier1, tier2]

set_option maxHeartbeats 1000000 in
/-- C4: the tariff function is monotonically non-decreasing on all of ℚ,
and it is continuous at each tier boundary (50, 75, 200, 300, 400 kWh):
the branch below each boundary and the branch above it agree at the
boundary. -/
theorem calc_bill_bd_monotone_and_continuous :
    (∀ x y : ℚ, x ≤ y → calc_bill_bd x ≤ calc_bill_bd y) ∧
    tier1 50 = tier2 50 ∧ tier2 75 = tier3 75 ∧ tier3 200 = tier4 200 ∧
    tier4 300 = tier5 300 ∧ tier5 400 = tier6 400 := by
  refine ⟨?_, by norm_num [tier1, tier2], by norm_num [tier2, tier3],
    by norm_num [tier3, tier4], by norm_num [tier4, tier5],
    by norm_num [tier5, tier6]⟩
  intro x y h
  unfold calc_bill_bd tier1 tier2 tier3 tier4 tier5 tier6
  split_ifs <;> linarith

/-- Witness for C4: the monotonicity conjunct applied at the concrete
pair 10 ≤ 60. -/
theorem calc_bill_bd_monotone_witness :
    (10 : ℚ) ≤ 60 ∧ calc_bill_bd 10 ≤ calc_bill_bd 60 :=
  ⟨by norm_num, calc_bill_bd_monotone_and_continuous.1 10 60 (by norm_num)⟩

/-- C5: `get_device_data` is total (no exception escapes), and in every
failure case — device info unobtainable, device reporting offline, token
unobtainable, or status request failed/malformed — it returns exactly
the zeroed tuple `(0, 0, 0, False, False)`, so all those cases are
indistinguishable to the caller. -/
theorem get_device_data_failure_zeroed (env : CloudEnv)
    (h : env.infoResult = none ∨
      (∃ info, env.infoResult = some info ∧ info.onlineField.getD false = false) ∨
      env.tokenResult = none ∨ env.statusResult = none) :
    get_device_data env = (0, 0, 0, .bool false, false) := by
  obtain ⟨info, tok, st⟩ := env
  rcases info with _ | i
  · rfl
  rcases hb : i.onlineField.getD false with _ | _
  · simp [get_device_data, hb]
  · rcases h with h | ⟨i2, hi, ho⟩ | h | h
    · simp at h
    · simp only [Option.some.injEq] at hi
      subst hi
      rw [hb] at ho
      exact absurd ho (by simp)
    · simp only at h
      subst h
      simp [get_device_data, hb]
    · simp only at h
      subst h
      rcases tok with _ | t <;> simp [get_device_data, hb]

/-- Witness for C5: a fully failing environment yields the zeroed tuple. -/
theorem get_device_data_failure_zeroed_witness :
    get_device_data ⟨none, none, none⟩ = (0, 0, 0, .bool false, false) :=
  get_device_data_failure_zeroed ⟨none, none, none⟩ (Or.inl rfl)

theorem hasKey_sameKey (tbl : List Reading) {r1 r2 : Reading}
    (hd : r2.device_id = r1.device_id) (ht : r2.ts = r1.ts) :
    hasKey tbl r2.device_id r2.ts = hasKey tbl r1.device_id r1.ts := by
  rw [hd, ht]

theorem hasKey_append_self (tbl : List Reading) (r : Reading) :
    hasKey (tbl ++ [r]) r.device_id r.ts = true := by
  simp [hasKey]

/-- C6: the readings store keeps at most one row per `(device_id, ts)`:
`insertOrIgnore` preserves the key-uniqueness invariant; inserting a
second reading with the same key (in either order) is a no-op that
changes nothing; and every insert either leaves the table exactly as it
was or appends the new row, so existing rows are never modified and no
error is raised. -/
theorem insertOrIgnore_unique_key :
    (∀ (tbl : List Reading) (r : Reading),
      noDupKey tbl → noDupKey (insertOrIgnore tbl r)) ∧
    (∀ (tbl : List Reading) (r1 r2 : Reading),
      r2.device_id = r1.device_id → r2.ts = r1.ts →
      insertOrIgnore (insertOrIgnore tbl r1) r2 = insertOrIgnore tbl r1) ∧
    (∀ (tbl : List Reading) (r : Reading),
      insertOrIgnore tbl r = tbl ∨ insertOrIgnore tbl r = tbl ++ [r]) := by
  refine ⟨?_, ?_, ?_⟩
  · intro tbl r hinv
    unfold noDupKey at hinv ⊢
    unfold insertOrIgnore
    split
    · exact hinv
    · rename_i hk
      rw [List.pairwise_append]
      refine ⟨hinv, by simp, ?_⟩
      intro a ha b hb
      simp only [List.mem_singleton] at hb
      subst hb
      intro hcon
      apply hk
      simp only [hasKey, List.any_eq_true, decide_eq_true_eq]
      exact ⟨a, ha, hcon⟩
  · intro tbl r1 r2 hd ht
    unfold insertOrIgnore
    split
    · rename_i hk1
      rw [hasKey_sameKey tbl hd ht, if_pos hk1]
    · rename_i hk1
      rw [hasKey_sameKey (tbl ++ [r1]) hd ht, if_pos (hasKey_append_self tbl r1)]
  · intro tbl r
    unfold insertOrIgnore
    split
    · exact Or.inl rfl
    · exact Or.inr rfl

/-- Witness for C6: inserting the same key twice on the empty table
leaves the single row of the first insert. -/
theorem insertOrIgnore_unique_key_witness :
    insertOrIgnore (insertOrIgnore [] ⟨"d1", 5, 230, 1, 60⟩) ⟨"d1", 5, 231, 2, 61⟩
      = insertOrIgnore [] ⟨"d1", 5, 230, 1, 60⟩ :=
  insertOrIgnore_unique_key.2.1 [] ⟨"d1", 5, 230, 1, 60⟩ ⟨"d1", 5, 231, 2, 61⟩
    rfl rfl

theorem readingsFor_insertOrIgnore_other (tbl : List Reading) (r : Reading)
    (did : String) (h : r.device_id ≠ did) :
    readingsFor (insertOrIgnore tbl r) did = readingsFor tbl did := by
  unfold insertOrIgnore
  split
  · rfl
  · unfold readingsFor
    rw [List.filter_append]
    simp [h]

theorem readingsFor_pollStep (devices : List Device) (env : String → CloudEnv)
    (ts : Int) (readings : List Reading) (dev : Device) (did : String)
    (h : dev.device_id ≠ did ∨
      (get_device_data (env did)).2.2.2.2 = false) :
    readingsFor (pollStep devices env ts readings dev) did
      = readingsFor readings did := by
  rcases h with h | h
  · simp only [pollStep]
    split_ifs <;> first
      | rfl
      | exact readingsFor_insertOrIgnore_other _ _ _ h
  · by_cases hdev : dev.device_id = did
    · simp only [pollStep]
      rw [hdev, h]
      simp
    · simp only [pollStep]
      split_ifs <;> first
        | rfl
        | exact readingsFor_insertOrIgnore_other _ _ _ hdev

theorem readingsFor_pollFold (devices devs : List Device)
    (env : String → CloudEnv) (ts : Int) (readings : List Reading)
    (did : String)
    (h : ∀ dev ∈ devs, dev.device_id ≠ did ∨
      (get_device_data (env did)).2.2.2.2 = false) :
    readingsFor (devs.foldl (pollStep devices env ts) readings) did
      = readingsFor readings did := by
  induction devs generalizing readings with
  | nil => rfl
  | cons dev rest ih =>
    rw [List.foldl_cons, ih _ (fun d hd => h d (List.mem_cons_of_mem _ hd)),
      readingsFor_pollStep _ _ _ _ _ _ (h dev (List.mem_cons_self _ _))]

theorem readingsFor_erase (rs : List Reading) (did : String) :
    readingsFor (rs.filter (fun r => ¬ r.device_id = did)) did = [] := by
  induction rs with
  | nil => rfl
  | cons r rest ih =>
    by_cases hr : r.device_id = did
    · simp [readingsFor, List.filter_cons, hr]
    · simp [readingsFor, List.filter_cons, hr]

/-- C9: deleting a registered device succeeds, removes the device row
and every reading row of that device, leaves the `schedules` table
untouched, and a subsequent poll cycle (under any cloud environment)
still stores no reading for the deleted device. -/
theorem delete_device_cascades (db : DB) (did : String)
    (env : String → CloudEnv) (ts : Int)
    (h : deviceExists db.devices did = true) :
    (delete_device db did).2 = true ∧
    (∀ d ∈ (delete_device db did).1.devices, d.device_id ≠ did) ∧
    readingsFor (delete_device db did).1.readings did = [] ∧
    (delete_device db did).1.schedules = db.schedules ∧
    readingsFor (pollCycle (delete_device db did).1 env ts).readings did = [] := by
  have heq : delete_device db did =
      ({ devices := db.devices.filter (fun d => ¬ d.device_id = did),
         readings := db.readings.filter (fun r => ¬ r.device_id = did),
         schedules := db.schedules }, true) := by
    unfold delete_device
    rw [if_pos h]
  rw [heq]
  refine ⟨rfl, ?_, readingsFor_erase db.readings did, rfl, ?_⟩
  · intro d hd
    simp only [List.mem_filter, decide_eq_true_eq] at hd
    exact hd.2
  · simp only [pollCycle]
    rw [readingsFor_pollFold]
    · exact readingsFor_erase db.readings did
    · intro dev hdev
      left
      simp only [List.mem_filter, decide_eq_true_eq] at hdev
      exact hdev.2

/-- Witness for C9: deleting the only device of `dbW`. -/
theorem delete_device_cascades_witness :
    deviceExists dbW.devices "d1" = true ∧
    ((delete_device dbW "d1").2 = true ∧
     (∀ d ∈ (delete_device dbW "d1").1.devices, d.device_id ≠ "d1") ∧
     readingsFor (delete_device dbW "d1").1.readings "d1" = [] ∧
     (delete_device dbW "d1").1.schedules = dbW.schedules ∧
     readingsFor (pollCycle (delete_device dbW "d1").1 envW 10).readings "d1"
       = []) :=
  ⟨by decide, delete_device_cascades dbW "d1" envW 10 (by decide)⟩

/-- C10: whenever the telemetry fetch for a device id reports
`is_online = false` (device offline or any request failed), the poll
cycle leaves the readings stored for that device unchanged — the zeroed
offline tuple is never persisted. -/
theorem pollCycle_no_insert_when_offline (db : DB) (env : String → CloudEnv)
    (ts : Int) (did : String)
    (h : (get_device_data (env did)).2.2.2.2 = false) :
    readingsFor (pollCycle db env ts).readings did
      = readingsFor db.readings did := by
  simp only [pollCycle]
  exact readingsFor_pollFold _ _ _ _ _ _ (fun dev _ => Or.inr h)

/-- Witness for C10: a cycle over `dbW` under the all-failing
environment leaves the stored reading of `d1` untouched. -/
theorem pollCycle_no_insert_when_offline_witness :
    (get_device_data (envW "d1")).2.2.2.2 = false ∧
    readingsFor (pollCycle dbW envW 10).readings "d1"
      = readingsFor dbW.readings "d1" :=
  ⟨by decide, pollCycle_no_insert_when_offline dbW envW 10 "d1" (by decide)⟩

/-! ### Characterising the trigger minutes of a simulated day -/

theorem pad2_data_len (h : Nat) (hh : h < 24) : (pad2 h).data.length = 2 := by
  interval_cases h <;> rfl

theorem pad2_eq_08 (h : Nat) (hh : h < 24) : pad2 h = "08" ↔ h = 8 := by
  interval_cases h <;> decide

theorem pad2_eq_18 (h : Nat) (hh : h < 24) : pad2 h = "18" ↔ h = 18 := by
  interval_cases h <;> decide

theorem pad2_eq_00 (r : Nat) (hr : r < 60) : pad2 r = "00" ↔ r = 0 := by
  interval_cases r <;> decide

theorem minuteToHHMM_eq_0800 (m : Nat) (hm : m < 1440) :
    minuteToHHMM m = "08:00" ↔ m = 480 := by
  have hdiv : m / 60 < 24 := by omega
  have hmod : m % 60 < 60 := Nat.mod_lt _ (by norm_num)
  constructor
  · intro he
    have hd : (pad2 (m / 60)).data ++ (':' :: (pad2 (m % 60)).data)
        = ['0', '8'] ++ [':', '0', '0'] := by
      have h0 := congrArg String.data he
      simpa [minuteToHHMM, String.data_append] using h0
    obtain ⟨h1, h2⟩ := List.append_inj hd
      (by rw [pad2_data_len _ hdiv]; rfl)
    simp only [List.cons.injEq, true_and] at h2
    have e1 : m / 60 = 8 := (pad2_eq_08 _ hdiv).1 (String.ext h1)
    have e2 : m % 60 = 0 := (pad2_eq_00 _ hmod).1 (String.ext h2)
    omega
  · intro he
    subst he
    rfl

theorem minuteToHHMM_eq_1800 (m : Nat) (hm : m < 1440) :
    minuteToHHMM m = "18:00" ↔ m = 1080 := by
  have hdiv : m / 60 < 24 := by omega
  have hmod : m % 60 < 60 := Nat.mod_lt _ (by norm_num)
  constructor
  · intro he
    have hd : (pad2 (m / 60)).data ++ (':' :: (pad2 (m % 60)).data)
        = ['1', '8'] ++ [':', '0', '0'] := by
      have h0 := congrArg String.data he
      simpa [minuteToHHMM, String.data_append] using h0
    obtain ⟨h1, h2⟩ := List.append_inj hd
      (by rw [pad2_data_len _ hdiv]; rfl)
    simp only [List.cons.injEq, true_and] at h2
    have e1 : m / 60 = 18 := (pad2_eq_18 _ hdiv).1 (String.ext h1)
    have e2 : m % 60 = 0 := (pad2_eq_00 _ hmod).1 (String.ext h2)
    omega
  · intro he
    subst he
    rfl

/-! ### The evaluator at a non-trigger minute is the identity -/

theorem check_s1_skip (env : CmdEnv) (t : String) (tr : Tracker)
    (h1 : t ≠ "08:00") (h2 : t ≠ "18:00") :
    check_and_execute_schedules [s1] env t "monday" tr = ([], tr) := by
  show evalSchedule env t "monday" ([], tr) s1 = ([], tr)
  simp only [evalSchedule, s1]
  rw [if_pos (by decide), if_neg h1, if_neg h2]

theorem check_s1_tuesday (env : CmdEnv) (t : String) (tr : Tracker) :
    check_and_execute_schedules [s1] env t "tuesday" tr = ([], tr) := by
  show evalSchedule env t "tuesday" ([], tr) s1 = ([], tr)
  simp only [evalSchedule, s1]
  rw [if_neg (by decide)]

theorem simStep_monday_id (env : CmdEnv) (acc : List (String × Cmd) × Tracker)
    (m : Nat) (h1 : minuteToHHMM m ≠ "08:00") (h2 : minuteToHHMM m ≠ "18:00") :
    simStep [s1] env "monday" acc m = acc := by
  simp only [simStep, check_s1_skip env _ acc.2 h1 h2, List.map_nil,
    List.append_nil]

theorem simStep_tuesday_id (env : CmdEnv) (acc : List (String × Cmd) × Tracker)
    (m : Nat) : simStep [s1] env "tuesday" acc m = acc := by
  simp only [simStep, check_s1_tuesday env _ acc.2, List.map_nil,
    List.append_nil]

/-- A fold whose step is the identity on every element of the range is
the identity. -/
theorem foldl_id_range' {α : Type} (f : α → Nat → α) (n : Nat) :
    ∀ (s : Nat) (a : α),
      (∀ (b : α) (m : Nat), s ≤ m → m < s + n → f b m = b) →
      (List.range' s n).foldl f a = a := by
  induction n with
  | zero => intro s a _; rfl
  | succ k ih =>
    intro s a h
    rw [List.range'_succ, List.foldl_cons, h a s le_rfl (by omega)]
    exact ih (s + 1) a (fun b m hm1 hm2 => h b m (by omega) (by omega))

/-- A simulated day split at its two possible trigger minutes 480
(`08:00`) and 1080 (`18:00`). -/
theorem simulateDay_decomp (schedules : List ScheduleRow) (env : CmdEnv)
    (day : String) (tracker : Tracker) :
    simulateDay schedules env day tracker =
      (List.range' 1081 359).foldl (simStep schedules env day)
        (simStep schedules env day
          ((List.range' 481 599).foldl (simStep schedules env day)
            (simStep schedules env day
              ((List.range' 0 480).foldl (simStep schedules env day)
                ([], tracker)) 480)) 1080) := by
  have e1 : List.range' 0 480 ++ List.range' 480 960 = List.range' 0 1440 := by
    have h := List.range'_append 0 480 960 1
    norm_num at h
    exact h
  have e2 : List.range' 480 1 ++ List.range' 481 959 = List.range' 480 960 := by
    have h := List.range'_append 480 1 959 1
    norm_num at h
    exact h
  have e3 : List.range' 481 599 ++ List.range' 1080 360 = List.range' 481 959 := by
    have h := List.range'_append 481 599 360 1
    norm_num at h
    exact h
  have e4 : List.range' 1080 1 ++ List.range' 1081 359 = List.range' 1080 360 := by
    have h := List.range'_append 1080 1 359 1
    norm_num at h
    exact h
  show (List.range 1440).foldl (simStep schedules env day) ([], tracker) = _
  rw [List.range_eq_range', ← e1, List.foldl_append, ← e2, List.foldl_append,
    ← e3, List.foldl_append, ← e4, List.foldl_append]
  rfl

theorem simulateDay_monday :
    simulateDay [s1] envOK "monday" []
      = ([("08:00", ⟨1, true⟩), ("18:00", ⟨1, false⟩)], trMon) := by
  rw [simulateDay_decomp]
  rw [foldl_id_range' _ 480 0 ([], []) (fun b m hm1 hm2 =>
    simStep_monday_id envOK b m
      (fun hc => by have := (minuteToHHMM_eq_0800 m (by omega)).1 hc; omega)
      (fun hc => by have := (minuteToHHMM_eq_1800 m (by omega)).1 hc; omega))]
  have s480 : simStep [s1] envOK "monday" ([], []) 480
      = ([("08:00", ⟨1, true⟩)], [("1_ON_monday", "08:00")]) := by decide
  rw [s480]
  rw [foldl_id_range' _ 599 481 _ (fun b m hm1 hm2 =>
    simStep_monday_id envOK b m
      (fun hc => by have := (minuteToHHMM_eq_0800 m (by omega)).1 hc; omega)
      (fun hc => by have := (minuteToHHMM_eq_1800 m (by omega)).1 hc; omega))]
  have s1080 : simStep [s1] envOK "monday"
      ([("08:00", ⟨1, true⟩)], [("1_ON_monday", "08:00")]) 1080
      = ([("08:00", ⟨1, true⟩), ("18:00", ⟨1, false⟩)], trMon) := by decide
  rw [s1080]
  exact foldl_id_range' _ 359 1081 _ (fun b m hm1 hm2 =>
    simStep_monday_id envOK b m
      (fun hc => by have := (minuteToHHMM_eq_0800 m (by omega)).1 hc; omega)
      (fun hc => by have := (minuteToHHMM_eq_1800 m (by omega)).1 hc; omega))

theorem simulateDay_monday_again :
    simulateDay [s1] envOK "monday" trMon = ([], trMon) := by
  rw [simulateDay_decomp]
  rw [foldl_id_range' _ 480 0 ([], trMon) (fun b m hm1 hm2 =>
    simStep_monday_id envOK b m
      (fun hc => by have := (minuteToHHMM_eq_0800 m (by omega)).1 hc; omega)
      (fun hc => by have := (minuteToHHMM_eq_1800 m (by omega)).1 hc; omega))]
  have s480 : simStep [s1] envOK "monday" ([], trMon) 480 = ([], trMon) := by
    decide
  rw [s480]
  rw [foldl_id_range' _ 599 481 _ (fun b m hm1 hm2 =>
    simStep_monday_id envOK b m
      (fun hc => by have := (minuteToHHMM_eq_0800 m (by omega)).1 hc; omega)
      (fun hc => by have := (minuteToHHMM_eq_1800 m (by omega)).1 hc; omega))]
  have s1080 : simStep [s1] envOK "monday" ([], trMon) 1080 = ([], trMon) := by
    decide
  rw [s1080]
  exact foldl_id_range' _ 359 1081 _ (fun b m hm1 hm2 =>
    simStep_monday_id envOK b m
      (fun hc => by have := (minuteToHHMM_eq_0800 m (by omega)).1 hc; omega)
      (fun hc => by have := (minuteToHHMM_eq_1800 m (by omega)).1 hc; omega))

theorem simulateDay_tuesday (tr : Tracker) :
    simulateDay [s1] envOK "tuesday" tr = ([], tr) := by
  show (List.range 1440).foldl (simStep [s1] envOK "tuesday") ([], tr) = ([], tr)
  rw [List.range_eq_range']
  exact foldl_id_range' _ 1440 0 ([], tr)
    (fun b m _ _ => simStep_tuesday_id envOK b m)

/-- C1: for the single enabled schedule `s1` (start `08:00`, end
`18:00`, Mondays only), a simulated Monday evaluated once per minute
with every command succeeding issues exactly the ON command at `08:00`
and the OFF command at `18:00`; the following simulated Tuesday issues
no command; and re-evaluating the `08:00` (resp. `18:00`) minute a
second time issues no additional command. -/
theorem schedule_day_exactly_once :
    (simulateDay [s1] envOK "monday" []).1
      = [("08:00", ⟨1, true⟩), ("18:00", ⟨1, false⟩)] ∧
    (simulateDay [s1] envOK "tuesday" (simulateDay [s1] envOK "monday" []).2).1
      = [] ∧
    (check_and_execute_schedules [s1] envOK "08:00" "monday"
      (check_and_execute_schedules [s1] envOK "08:00" "monday" []).2).1 = [] ∧
    (check_and_execute_schedules [s1] envOK "18:00" "monday"
      (check_and_execute_schedules [s1] envOK "18:00" "monday" []).2).1 = [] := by
  refine ⟨by rw [simulateDay_monday], ?_, by decide, by decide⟩
  rw [simulateDay_monday, simulateDay_tuesday]

/-- C2: the execution tracker does *not* retain entries for just one
tick: after schedule `s1` fires on a simulated Monday, a whole further
simulated Monday (the next day on which its triggers occur, one process
lifetime later) issues *zero* commands, because the entry
`1_ON_monday ↦ "08:00"` stored by the first firing still satisfies the
`last_exec == current_time` suppression test a week later. -/
theorem tracker_suppresses_next_monday :
    (simulateDay [s1] envOK "monday" (simulateDay [s1] envOK "monday" []).2).1
      = [] := by
  rw [simulateDay_monday]
  rw [show ((([("08:00", (⟨1, true⟩ : Cmd)), ("18:00", ⟨1, false⟩)],
    trMon) : List (String × Cmd) × Tracker)).2 = trMon from rfl]
  rw [simulateDay_monday_again]

/-! ### Start and end triggers (C7) and transport failure (C8) -/

/-- Counterexample to C7 as stated: for a schedule with identical start
and end time `08:00`, evaluating the `08:00` minute issues *only* the ON
command — the OFF trigger is shadowed by the `elif`, so the claimed OFF
command is never issued. -/
theorem same_start_end_only_on :
    (check_and_execute_schedules [s7] envOK "08:00" "monday" []).1
      = [⟨7, true⟩] ∧
    Cmd.mk 7 false ∉ (check_and_execute_schedules [s7] envOK "08:00" "monday" []).1 := by
  decide

/-- C7 (amended): start and end are two independent trigger points with
the start branch taking precedence: at the start minute exactly the ON
command is issued — even when the end time equals the start time, in
which case the OFF trigger is shadowed and never fires; at an end minute
that differs from the start time exactly the OFF command is issued, so a
schedule spanning midnight (end < start, end ≠ start) still fires each
trigger at its own minute. -/
theorem start_end_trigger_amended (s : ScheduleRow) (day t : String)
    (hen : s.enabled = true)
    (hday : day ∈ parseDays s.days) :
    (t = s.start_time →
      (check_and_execute_schedules [s] envOK t day []).1 = [⟨s.id, true⟩]) ∧
    (t ≠ s.start_time → t = s.end_time →
      (check_and_execute_schedules [s] envOK t day []).1 = [⟨s.id, false⟩]) := by
  have hf : [s].filter (fun x => x.enabled) = [s] := by
    simp [List.filter_cons, hen]
  constructor
  · intro ht
    subst ht
    unfold check_and_execute_schedules
    rw [hf]
    show (evalSchedule envOK s.start_time day ([], []) s).1 = [⟨s.id, true⟩]
    simp [evalSchedule, hday, lookupTracker, envOK]
  · intro hne ht
    subst ht
    unfold check_and_execute_schedules
    rw [hf]
    show (evalSchedule envOK s.end_time day ([], []) s).1 = [⟨s.id, false⟩]
    simp [evalSchedule, hday, hne, lookupTracker, envOK]

/-- Witness for the amended C7: schedule `s7` (start = end = `08:00`) at
`08:00` on a Monday issues exactly the ON command. -/
theorem start_end_trigger_amended_witness :
    s7.enabled = true ∧ "monday" ∈ parseDays s7.days ∧
    (check_and_execute_schedules [s7] envOK "08:00" "monday" []).1
      = [⟨7, true⟩] :=
  ⟨rfl, by decide,
   (start_end_trigger_amended s7 "monday" "08:00" rfl (by decide)).1 rfl⟩

/-- C8: if neither a token-plus-200 success happens for either
transition of a schedule (token unobtainable, non-200 response, or a
raised request), the tracker is left exactly as it was, and re-running
the evaluator on the resulting tracker repeats the first evaluation
verbatim — the failed command is retried. -/
theorem transport_failure_leaves_tracker (s : ScheduleRow) (env : CmdEnv)
    (t day : String) (tr : Tracker)
    (hfail : ∀ b, ¬((env s.id b).token_ok = true ∧
      (env s.id b).status = some 200)) :
    (check_and_execute_schedules [s] env t day tr).2 = tr ∧
    check_and_execute_schedules [s] env t day
        ((check_and_execute_schedules [s] env t day tr).2)
      = check_and_execute_schedules [s] env t day tr := by
  have key : (check_and_execute_schedules [s] env t day tr).2 = tr := by
    by_cases hen : s.enabled
    · have hf : [s].filter (fun x => x.enabled) = [s] := by
        simp [List.filter_cons, hen]
      unfold check_and_execute_schedules
      rw [hf]
      show (evalSchedule env t day ([], tr) s).2 = tr
      simp only [evalSchedule]
      split_ifs <;> try rfl
      all_goals rename_i htok hst
      all_goals exact absurd ⟨htok, hst⟩ (hfail _)
    · have hf : [s].filter (fun x => x.enabled) = [] := by
        simp [List.filter_cons, hen]
      unfold check_and_execute_schedules
      rw [hf]
      rfl
  exact ⟨key, by rw [key]⟩

/-- Witness for C8: schedule `s1` at its trigger minute under the
all-500 transport leaves the empty tracker empty, and the re-evaluation
equals the first evaluation. -/
theorem transport_failure_leaves_tracker_witness :
    (∀ b, ¬((envFail 1 b).token_ok = true ∧ (envFail 1 b).status = some 200)) ∧
    (check_and_execute_schedules [s1] envFail "08:00" "monday" []).2 = [] ∧
    check_and_execute_schedules [s1] envFail "08:00" "monday"
        ((check_and_execute_schedules [s1] envFail "08:00" "monday" []).2)
      = check_and_execute_schedules [s1] envFail "08:00" "monday" [] :=
  ⟨by decide,
   (transport_failure_leaves_tracker s1 envFail "08:00" "monday" [] (by decide)).1,
   (transport_failure_leaves_tracker s1 envFail "08:00" "monday" [] (by decide)).2⟩
